import Mathlib

/-!
Shallow embedding of `train.py` (3DCD repository): the training/evaluation
loop, its checkpoint policy, the loss and metric bookkeeping, and the
3D-target normalization.  Scalar quantities that the script computes in
floating point are modelled over `ℚ` (exact arithmetic); square roots appear
only in theorem statements, over `ℝ`.  Python exceptions are modelled by
`Option`/`Except` results.
-/

namespace Train3DCD

/-! ## Epoch iteration (train.py line 196: `for epoch in range(1, nepochs)`) -/

/-- Python's `range(a, b)`: the list `[a, a+1, ..., b-1]` (empty when `b ≤ a`). -/
def pythonRange (a b : ℕ) : List ℕ := List.range' a (b - a)

/-- The list of epoch indices the training loop iterates over:
`range(1, nepochs)` with `nepochs = exp_config['optim']['num_epochs']`. -/
def epochIndices (nepochs : ℕ) : List ℕ := pythonRange 1 nepochs

/-! ## Checkpoint policy (train.py lines 191-192, 282-290) -/

/-- The two best-metric trackers (`best2dmetric`, `best3dmetric`). -/
structure BestState where
  best2d : ℚ
  best3d : ℚ
  deriving DecidableEq, Repr

/-- Initial trackers: `best2dmetric = 0`, `best3dmetric = 1000000`. -/
def initBest : BestState := ⟨0, 1000000⟩

/-- One epoch's checkpoint decision (lines 282-290): if `F1 > best2dmetric`
update it and save the 2D-best artifact; independently, if
`RMSE2 < best3dmetric` update it and save the 3D-best artifact.  Returns the
new trackers and the two save flags. -/
def checkpointStep (s : BestState) (f1 rmse2 : ℚ) : BestState × Bool × Bool :=
  let save2d := decide (f1 > s.best2d)
  let b2 := if f1 > s.best2d then f1 else s.best2d
  let save3d := decide (rmse2 < s.best3d)
  let b3 := if rmse2 < s.best3d then rmse2 else s.best3d
  (⟨b2, b3⟩, save2d, save3d)

/-- The trackers after a whole run: fold `checkpointStep` over the per-epoch
validation metrics `(F1, RMSE2)`. -/
def runCheckpoints (s : BestState) (ms : List (ℚ × ℚ)) : BestState :=
  ms.foldl (fun st m => (checkpointStep st m.1 m.2).1) s

/-! ## Training-loss accumulation (train.py lines 197-198, 222-226) -/

/-- Per-epoch loss accumulation as the code performs it: each batch's loss is
scaled by the configured constant `batch_size` (line 222:
`tot_2d_loss += loss2d * batch_size`), and the total is divided by
`len(train_dataset)` (line 225).  A batch is a pair (loss value, actual number
of samples in the batch); the code ignores the actual size. -/
def epochLossTrain (batchSize datasetSize : ℕ) (batches : List (ℚ × ℕ)) : ℚ :=
  (batches.foldl (fun acc b => acc + b.1 * (batchSize : ℚ)) 0) / (datasetSize : ℚ)

/-- Modelled from the spec's words for comparison (refinement): each per-batch
loss scaled by that batch's actual size, summed, divided by the dataset
size. -/
def epochLossSpecWeighted (datasetSize : ℕ) (batches : List (ℚ × ℕ)) : ℚ :=
  (batches.foldl (fun acc b => acc + b.1 * (b.2 : ℚ)) 0) / (datasetSize : ℚ)

/-! ## 3D-target normalization (train.py lines 209, 252, 324) -/

/-- Line 209: `mask3d = 2*(mask3d - min_scale)/(max_scale - min_scale) - 1`. -/
def normalize3d (minS maxS x : ℚ) : ℚ := 2 * (x - minS) / (maxS - minS) - 1

/-- Line 252 (validation): `out3d = ((out3d+1)/2)*(max_scale-min_scale)+min_scale`. -/
def denormalizeVal (minS maxS y : ℚ) : ℚ := ((y + 1) / 2) * (maxS - minS) + minS

/-- Line 324 (test): `out3d = (out3d+1)*(max_scale-min_scale)/2 + min_scale`. -/
def denormalizeTest (minS maxS y : ℚ) : ℚ := (y + 1) * (maxS - minS) / 2 + minS

/-! ## Confusion matrix with degenerate fallback (lines 254-258, 326-330) -/

/-- The class labels present in a flattened binary mask, in sorted order
(sklearn's `confusion_matrix` uses the sorted union of the labels occurring
in `y_true` and `y_pred`). -/
def classesPresent (l : List Bool) : List Bool :=
  (if false ∈ l then [false] else []) ++ (if true ∈ l then [true] else [])

/-- The value of `metrics.confusion_matrix(y_true, y_pred).ravel()`: the
`k × k` count matrix over the labels present in either argument, flattened
row-major, where entry `(i, j)` counts positions with true label `i` and
predicted label `j`. -/
def confusionRavel (yTrue yPred : List Bool) : List ℕ :=
  ((classesPresent (yTrue ++ yPred)).map fun i =>
    (classesPresent (yTrue ++ yPred)).map fun j =>
      ((yTrue.zip yPred).filter fun p => p.1 == i && p.2 == j).length).flatten

/-- The tuple unpacking `tn, fp, fn, tp = (...).ravel()` (lines 255, 327):
succeeds only when the raveled matrix has exactly 4 entries (a 2×2 matrix);
`none` models the raised `ValueError`. -/
def unpack4 (l : List ℕ) : Option (ℕ × ℕ × ℕ × ℕ) :=
  match l with
  | [tn, fp, fn, tp] => some (tn, fp, fn, tp)
  | _ => none

/-- The try-block body of lines 254-255 / 326-327. -/
def confusionCounts (yTrue yPred : List Bool) : Option (ℕ × ℕ × ℕ × ℕ) :=
  unpack4 (confusionRavel yTrue yPred)

/-- Lines 254-258 / 326-330: the try/except substitutes `(0,0,0,0)` when the
computation fails; the function is total (the except clause never re-raises). -/
def batchCounts (yTrue yPred : List Bool) : ℕ × ℕ × ℕ × ℕ :=
  (confusionCounts yTrue yPred).getD (0, 0, 0, 0)

/-! ## metric_mse (train.py lines 45-51) -/

/-- The value of `np.count_nonzero(targets)`. -/
def countNonzero (l : List ℚ) : ℕ := (l.filter fun x => decide (x ≠ 0)).length

/-- Lines 45-51: squared error, then either the sum divided by the number of
nonzero target entries (`exclude_zeros = True`) or the mean over all entries.
A zero divisor makes the floating-point result undefined; this is modelled by
`none`. -/
def metric_mse (inputs targets : List ℚ) (excludeZeros : Bool) : Option ℚ :=
  let loss := (inputs.zip targets).map fun p => (p.1 - p.2) ^ 2
  if excludeZeros then
    let nPixels := countNonzero targets
    if nPixels = 0 then none else some (loss.sum / (nPixels : ℚ))
  else
    if loss.length = 0 then none else some (loss.sum / (loss.length : ℚ))

/-! ## Validation/test metric loop (lines 236-278, 307-355) -/

/-- Per-batch inputs to the metric accumulation: the flattened 2D ground truth
and prediction, this batch's mean absolute error and its two `metric_mse`
values (all pixels / nonzero-target pixels). -/
structure ValBatch where
  yTrue : List Bool
  yPred : List Bool
  mae : ℚ
  mse1 : ℚ
  mse2 : ℚ
  deriving DecidableEq

/-- The running accumulators `TN, FP, FN, TP, mean_mae, rmse1, rmse2`. -/
structure MetricAcc where
  TN : ℕ
  FP : ℕ
  FN : ℕ
  TP : ℕ
  maeSum : ℚ
  mse1Sum : ℚ
  mse2Sum : ℚ
  deriving DecidableEq

/-- Lines 236-242 / 307-313: zero-initialized accumulators. -/
def initAcc : MetricAcc := ⟨0, 0, 0, 0, 0, 0, 0⟩

/-- One iteration of the validation/test loop (lines 254-272 / 326-349):
confusion counts through the try/except fallback, then `+=` accumulation. -/
def metricStep (a : MetricAcc) (b : ValBatch) : MetricAcc :=
  let c := batchCounts b.yTrue b.yPred
  ⟨a.TN + c.1, a.FP + c.2.1, a.FN + c.2.2.1, a.TP + c.2.2.2,
    a.maeSum + b.mae, a.mse1Sum + b.mse1, a.mse2Sum + b.mse2⟩

/-- The whole phase loop over its batches. -/
def runMetricLoop (bs : List ValBatch) : MetricAcc := bs.foldl metricStep initAcc

/-- Line 274 / 351: `F1 = 2*TP/(2*TP+FN+FP)`.  The counts are integers, so a
zero denominator raises `ZeroDivisionError`, modelled by `none`. -/
def phaseF1 (bs : List ValBatch) : Option ℚ :=
  let a := runMetricLoop bs
  if 2 * a.TP + a.FN + a.FP = 0 then none
  else some ((2 * a.TP : ℚ) / ((2 * a.TP + a.FN + a.FP : ℕ) : ℚ))

/-- Line 275 / 352: `IoU = TP/(TP+FN+FP)`, `none` on a zero denominator. -/
def phaseIoU (bs : List ValBatch) : Option ℚ :=
  let a := runMetricLoop bs
  if a.TP + a.FN + a.FP = 0 then none
  else some ((a.TP : ℚ) / ((a.TP + a.FN + a.FP : ℕ) : ℚ))

/-- Line 276 / 353: `mean_mae = mean_mae/len(loader)`. -/
def phaseMeanMAE (bs : List ValBatch) : ℚ := (runMetricLoop bs).maeSum / (bs.length : ℚ)

/-- Line 277 / 354 radicand: `rmse1/len(loader)` (`RMSE1` is its square root). -/
def phaseMSE1avg (bs : List ValBatch) : ℚ := (runMetricLoop bs).mse1Sum / (bs.length : ℚ)

/-- Line 278 / 355 radicand: `rmse2/len(loader)` (`RMSE2` is its square root). -/
def phaseMSE2avg (bs : List ValBatch) : ℚ := (runMetricLoop bs).mse2Sum / (bs.length : ℚ)

/-! ## Test-phase verbose branch (train.py lines 338-341) -/

/-- Every name bound in scope at the test loop's verbose branch: the imported
module/function names, the module-level assignments of train.py, and the
test-loop locals assigned before line 341. -/
def testScopeNames : List String :=
  ["np", "json", "time", "sys", "datetime", "pathlib", "shutil", "yaml",
   "ArgumentParser", "os", "partial", "metrics", "tqdm", "trange", "models",
   "torch", "nn", "cudnn", "F", "DataLoader", "optim",
   "SUNet18", "ChangeFormerV6", "SiamUnet_conc", "Unet", "MTBIT", "ResNet18",
   "Dataset", "get_validation_augmentations", "get_training_augmentations",
   "choose_criterion3d", "choose_criterion2d", "set_optimizer", "set_scheduler",
   "pretrain_strategy", "get_args", "metric_mse", "args", "device", "cuda",
   "num_GPU", "manual_seed", "config_name", "config_path", "default_dst_dir",
   "out_file", "full_config_path", "f", "exp_config", "stats_file",
   "x_train_dir", "x_valid_dir", "x_test_dir", "batch_size", "lweight2d",
   "lweight3d", "weights2d", "augmentation", "min_scale", "max_scale", "mean",
   "std", "train_transform", "valid_transform", "train_dataset",
   "valid_dataset", "test_dataset", "train_loader", "valid_loader",
   "test_loader", "name_3dloss", "exclude_zeros", "criterion3d",
   "class_weights2d", "name_2dloss", "criterion2d", "nepochs", "lr", "model",
   "classes", "pretrain", "arch", "CHECKPOINTS", "encoder", "pretrained",
   "net", "optimizer", "lr_adjust", "res_cp", "start", "best2dmetric",
   "best3dmetric", "epoch", "tot_2d_loss", "tot_3d_loss", "param_group",
   "loss2d", "loss3d", "loss", "epoch_2d_loss", "epoch_3d_loss", "epoch_loss",
   "TN", "FP", "FN", "TP", "mean_mae", "rmse1", "rmse2", "F1", "IoU",
   "RMSE1", "RMSE2", "stats", "end", "t1", "t2", "mask2d", "mask3d",
   "out2d", "out3d", "tn", "fp", "fn", "tp", "mean_ae", "s_rmse1", "s_rmse2",
   "max_error", "mask_max"]

/-- The names the verbose branch's f-strings interpolate, in evaluation order
(lines 340-341); line 341 reads `{s_rmse}` although only `s_rmse1` and
`s_rmse2` are ever assigned. -/
def verboseRefNames : List String :=
  ["tn", "fn", "tp", "fp", "mean_ae", "s_rmse", "max_error", "mask_max"]

/-- Left-to-right evaluation of a list of name references: the first name the
environment does not bind raises `NameError` (modelled by `Except.error`). -/
def evalNames (env : String → Option ℚ) : List String → Except String (List ℚ)
  | [] => Except.ok []
  | n :: ns =>
    match env n with
    | none => Except.error n
    | some v =>
      match evalNames env ns with
      | Except.error e => Except.error e
      | Except.ok vs => Except.ok (v :: vs)

/-- The environment at line 341: exactly the bound names have values, given by
an arbitrary value assignment. -/
def scopeEnv (vals : String → ℚ) : String → Option ℚ :=
  fun n => if n ∈ testScopeNames then some (vals n) else none

/-! ## train/eval mode calls (train.py lines 194, 234, 305) -/

/-- The two states `net.train()` / `net.eval()` put the network into. -/
inductive NetMode
  | train
  | eval
  deriving DecidableEq, Repr

/-- The mode-setting calls the script issues, in program order: `net.train()`
(line 194) once before the epoch loop, `net.eval()` (line 234) in each epoch's
validation phase, and `net.eval()` (line 305) before the test phase; the loop
body contains no `net.train()` call. -/
def modeCalls (nepochs : ℕ) : List NetMode :=
  NetMode.train :: ((epochIndices nepochs).map fun _ => NetMode.eval) ++ [NetMode.eval]

/-- Simulation of the mode across the epoch loop: given the current mode,
record it as the mode of this epoch's training phase, then switch to eval mode
for the epoch's validation phase. -/
def phaseModes (m : NetMode) : List ℕ → List NetMode
  | [] => []
  | _ :: es => m :: phaseModes NetMode.eval es

/-- The mode the network is in while each epoch's training batches run. -/
def trainingPhaseModes (nepochs : ℕ) : List NetMode :=
  phaseModes NetMode.train (epochIndices nepochs)

end Train3DCD

namespace Train3DCD

/-! ## Theorems for claims C1-C4 -/

theorem checkpointStep_best2d_le (s : BestState) (f1 rmse2 : ℚ) :
    s.best2d ≤ (checkpointStep s f1 rmse2).1.best2d := by
  simp only [checkpointStep]
  split
  · exact le_of_lt (by assumption)
  · exact le_refl _

theorem checkpointStep_best3d_ge (s : BestState) (f1 rmse2 : ℚ) :
    (checkpointStep s f1 rmse2).1.best3d ≤ s.best3d := by
  simp only [checkpointStep]
  split
  · exact le_of_lt (by assumption)
  · exact le_refl _

theorem runCheckpoints_best2d_le (ms : List (ℚ × ℚ)) :
    ∀ s : BestState, s.best2d ≤ (runCheckpoints s ms).best2d := by
  induction ms with
  | nil => intro s; exact le_refl _
  | cons m _ ih =>
      intro s
      exact le_trans (checkpointStep_best2d_le s m.1 m.2) (ih _)

theorem runCheckpoints_best3d_ge (ms : List (ℚ × ℚ)) :
    ∀ s : BestState, (runCheckpoints s ms).best3d ≤ s.best3d := by
  induction ms with
  | nil => intro s; exact le_refl _
  | cons m _ ih =>
      intro s
      exact le_trans (ih _) (checkpointStep_best3d_ge s m.1 m.2)

/-- C1: the spec/claim says the training body executes `num_epochs` times for
every configured count `n ≥ 1`; the code's loop is `range(1, nepochs)`, which
executes the body `nepochs - 1` times (`0` times for `num_epochs = 1`,
`4` times for `num_epochs = 5`), an off-by-one against the configured count. -/
theorem c1_epoch_loop_off_by_one :
    (epochIndices 1).length = 0 ∧ (epochIndices 5).length = 4 ∧
      ∀ n : ℕ, (epochIndices n).length = n - 1 := by
  refine ⟨rfl, rfl, ?_⟩
  intro n
  simp [epochIndices, pythonRange]

/-- C2: both checkpoint checks run independently after each epoch: the 2D save
flag and updated `best2dmetric` do not depend on the 3D metric, the 3D save
flag and updated `best3dmetric` do not depend on the 2D metric, and across a
run `best2dmetric` is non-decreasing while `best3dmetric` is non-increasing. -/
theorem c2_checkpoint_independence_monotone :
    (∀ (s : BestState) (f1 r r' : ℚ),
        (checkpointStep s f1 r).2.1 = (checkpointStep s f1 r').2.1 ∧
        (checkpointStep s f1 r).1.best2d = (checkpointStep s f1 r').1.best2d) ∧
    (∀ (s : BestState) (f1 f1' r : ℚ),
        (checkpointStep s f1 r).2.2 = (checkpointStep s f1' r).2.2 ∧
        (checkpointStep s f1 r).1.best3d = (checkpointStep s f1' r).1.best3d) ∧
    (∀ (s : BestState) (ms : List (ℚ × ℚ)),
        s.best2d ≤ (runCheckpoints s ms).best2d ∧
        (runCheckpoints s ms).best3d ≤ s.best3d) := by
  refine ⟨?_, ?_, ?_⟩
  · intro s f1 r r'; exact ⟨rfl, rfl⟩
  · intro s f1 f1' r; exact ⟨rfl, rfl⟩
  · intro s ms
    exact ⟨runCheckpoints_best2d_le ms s, runCheckpoints_best3d_ge ms s⟩

/-- C3 counterexample: with configured batch size 2 over a dataset of 3
samples, the loader yields batches of actual sizes 2 and 1; for per-batch
losses 0 and 1 the code's epoch loss is `(0*2 + 1*2)/3 = 2/3`, while the
claimed actual-size-weighted average is `(0*2 + 1*1)/3 = 1/3`. -/
theorem c3_counterexample_partial_batch :
    epochLossTrain 2 3 [(0, 2), (1, 1)] ≠ epochLossSpecWeighted 3 [(0, 2), (1, 1)] := by
  norm_num [epochLossTrain, epochLossSpecWeighted]

/-- C3 amended: the reported epoch losses scale every per-batch loss by the
configured constant `batch_size` (not the batch's actual size) before dividing
by the dataset size; this agrees with the actual-size-weighted average exactly
when every batch is full. -/
theorem c3_epoch_loss_constant_batchsize (batchSize datasetSize : ℕ)
    (batches : List (ℚ × ℕ)) (hfull : ∀ b ∈ batches, b.2 = batchSize) :
    epochLossTrain batchSize datasetSize batches =
      epochLossSpecWeighted datasetSize batches ∧
    epochLossTrain batchSize datasetSize batches =
      ((batches.map Prod.fst).sum * (batchSize : ℚ)) / (datasetSize : ℚ) := by
  constructor
  · unfold epochLossTrain epochLossSpecWeighted
    congr 1
    have key : ∀ (l : List (ℚ × ℕ)), (∀ x ∈ l, x.2 = batchSize) → ∀ a : ℚ,
        l.foldl (fun acc b => acc + b.1 * (batchSize : ℚ)) a =
        l.foldl (fun acc b => acc + b.1 * (b.2 : ℚ)) a := by
      intro l
      induction l with
      | nil => intro _ a; rfl
      | cons c cs ihc =>
          intro hl a
          have hc : c.2 = batchSize := hl c (List.mem_cons_self c cs)
          simp only [List.foldl_cons, hc]
          exact ihc (fun x hx => hl x (List.mem_cons_of_mem c hx)) _
    exact key batches hfull 0
  · unfold epochLossTrain
    have shift : ∀ (l : List (ℚ × ℕ)) (a : ℚ),
        l.foldl (fun acc b => acc + b.1 * (batchSize : ℚ)) a =
        a + (l.map Prod.fst).sum * (batchSize : ℚ) := by
      intro l
      induction l with
      | nil => intro a; simp
      | cons c cs ihc =>
          intro a
          simp only [List.foldl_cons, List.map_cons, List.sum_cons, ihc]
          ring
    rw [shift batches 0, zero_add]

theorem c3_witness :
    ((∀ b ∈ ([(5, 2), (7, 2)] : List (ℚ × ℕ)), b.2 = 2) ∧
      (epochLossTrain 2 4 [(5, 2), (7, 2)] = epochLossSpecWeighted 4 [(5, 2), (7, 2)] ∧
        epochLossTrain 2 4 [(5, 2), (7, 2)] =
          (([(5, 2), (7, 2)] : List (ℚ × ℕ)).map Prod.fst).sum * (2 : ℚ) / (4 : ℚ))) :=
  ⟨by decide, c3_epoch_loss_constant_batchsize 2 4 [(5, 2), (7, 2)] (by decide)⟩

/-- C4: the 3D-target normalization (line 209) and both inverse transforms
(validation line 252, test line 324) are exact inverses on
`[min_scale, max_scale]` whenever `max_scale ≠ min_scale`. -/
theorem c4_normalization_roundtrip (minS maxS x : ℚ)
    (hlo : minS ≤ x) (hhi : x ≤ maxS) (hne : maxS ≠ minS) :
    denormalizeVal minS maxS (normalize3d minS maxS x) = x ∧
    denormalizeTest minS maxS (normalize3d minS maxS x) = x := by
  have hd : maxS - minS ≠ 0 := sub_ne_zero.mpr hne
  constructor
  · unfold denormalizeVal normalize3d
    field_simp
    ring
  · unfold denormalizeTest normalize3d
    field_simp

theorem c4_witness :
    ((0 : ℚ) ≤ 7 ∧ (7 : ℚ) ≤ 10 ∧ (10 : ℚ) ≠ 0) ∧
      (denormalizeVal 0 10 (normalize3d 0 10 7) = 7 ∧
        denormalizeTest 0 10 (normalize3d 0 10 7) = 7) :=
  ⟨by norm_num, c4_normalization_roundtrip 0 10 7 (by norm_num) (by norm_num) (by norm_num)⟩

/-! ## Theorems for claims C5, C6, C8, C9 -/

theorem classesPresent_single (l : List Bool) (b : Bool) (h : ∀ x ∈ l, x = b) :
    classesPresent l = [] ∨ classesPresent l = [b] := by
  unfold classesPresent
  cases b with
  | false =>
      have ht : true ∉ l := fun hm => by simpa using h true hm
      rw [if_neg ht]
      by_cases hf : false ∈ l
      · rw [if_pos hf]; right; rfl
      · rw [if_neg hf]; left; rfl
  | true =>
      have hf : false ∉ l := fun hm => by simpa using h false hm
      rw [if_neg hf]
      by_cases ht : true ∈ l
      · rw [if_pos ht]; right; rfl
      · rw [if_neg ht]; left; rfl

theorem confusionCounts_single_class (yTrue yPred : List Bool) (b : Bool)
    (h : ∀ x ∈ yTrue ++ yPred, x = b) : confusionCounts yTrue yPred = none := by
  rcases classesPresent_single (yTrue ++ yPred) b h with hc | hc <;>
    · unfold confusionCounts confusionRavel
      rw [hc]
      rfl

theorem batchCounts_single_class (yTrue yPred : List Bool) (b : Bool)
    (h : ∀ x ∈ yTrue ++ yPred, x = b) : batchCounts yTrue yPred = (0, 0, 0, 0) := by
  unfold batchCounts
  rw [confusionCounts_single_class yTrue yPred b h]
  rfl

/-- C6: when the confusion-matrix computation fails because ground truth and
predictions contain a single class (the raveled matrix is not 2×2), the
try/except substitutes all-zero counts `(0,0,0,0)` for the batch and the loop
continues: `batchCounts` is total and returns the fallback value. -/
theorem c6_confusion_fallback (yTrue yPred : List Bool) (b : Bool)
    (hsingle : ∀ x ∈ yTrue ++ yPred, x = b) :
    confusionCounts yTrue yPred = none ∧ batchCounts yTrue yPred = (0, 0, 0, 0) :=
  ⟨confusionCounts_single_class yTrue yPred b hsingle,
    batchCounts_single_class yTrue yPred b hsingle⟩

theorem c6_witness :
    (∀ x ∈ ([false, false] ++ [false] : List Bool), x = false) ∧
      (confusionCounts [false, false] [false] = none ∧
        batchCounts [false, false] [false] = (0, 0, 0, 0)) :=
  ⟨by decide, c6_confusion_fallback [false, false] [false] false (by decide)⟩

theorem foldl_metricStep_spec (bs : List ValBatch) : ∀ a : MetricAcc,
    bs.foldl metricStep a =
      ⟨a.TN + (bs.map fun b => (batchCounts b.yTrue b.yPred).1).sum,
        a.FP + (bs.map fun b => (batchCounts b.yTrue b.yPred).2.1).sum,
        a.FN + (bs.map fun b => (batchCounts b.yTrue b.yPred).2.2.1).sum,
        a.TP + (bs.map fun b => (batchCounts b.yTrue b.yPred).2.2.2).sum,
        a.maeSum + (bs.map ValBatch.mae).sum,
        a.mse1Sum + (bs.map ValBatch.mse1).sum,
        a.mse2Sum + (bs.map ValBatch.mse2).sum⟩ := by
  induction bs with
  | nil => intro a; simp
  | cons b bs ih =>
      intro a
      simp only [List.foldl_cons, List.map_cons, List.sum_cons, ih, metricStep,
        MetricAcc.mk.injEq]
      refine ⟨by omega, by omega, by omega, by omega, by ring, by ring, by ring⟩

theorem runMetricLoop_sums (bs : List ValBatch) :
    runMetricLoop bs =
      ⟨(bs.map fun b => (batchCounts b.yTrue b.yPred).1).sum,
        (bs.map fun b => (batchCounts b.yTrue b.yPred).2.1).sum,
        (bs.map fun b => (batchCounts b.yTrue b.yPred).2.2.1).sum,
        (bs.map fun b => (batchCounts b.yTrue b.yPred).2.2.2).sum,
        (bs.map ValBatch.mae).sum,
        (bs.map ValBatch.mse1).sum,
        (bs.map ValBatch.mse2).sum⟩ := by
  unfold runMetricLoop
  rw [foldl_metricStep_spec bs initAcc]
  simp [initAcc]

/-- C5: the phase-end metrics are the closed forms applied to the summed
per-batch counts/metrics: `F1 = 2*TP/(2*TP+FN+FP)`, `IoU = TP/(TP+FN+FP)`,
`meanMAE = sum(MAE)/num_batches`, `RMSE = sqrt(sum(mse)/num_batches)`,
`cRMSE = sqrt(sum(mse_excl_zero)/num_batches)`, each batch contributing its
value exactly once. -/
theorem c5_phase_metrics_closed_forms (bs : List ValBatch)
    (hden : 2 * (bs.map fun b => (batchCounts b.yTrue b.yPred).2.2.2).sum
        + (bs.map fun b => (batchCounts b.yTrue b.yPred).2.2.1).sum
        + (bs.map fun b => (batchCounts b.yTrue b.yPred).2.1).sum ≠ 0) :
    phaseF1 bs = some
        ((2 * ((bs.map fun b => (batchCounts b.yTrue b.yPred).2.2.2).sum) : ℚ) /
          ((2 * (bs.map fun b => (batchCounts b.yTrue b.yPred).2.2.2).sum
            + (bs.map fun b => (batchCounts b.yTrue b.yPred).2.2.1).sum
            + (bs.map fun b => (batchCounts b.yTrue b.yPred).2.1).sum : ℕ) : ℚ)) ∧
    phaseIoU bs = some
        ((((bs.map fun b => (batchCounts b.yTrue b.yPred).2.2.2).sum : ℕ) : ℚ) /
          (((bs.map fun b => (batchCounts b.yTrue b.yPred).2.2.2).sum
            + (bs.map fun b => (batchCounts b.yTrue b.yPred).2.2.1).sum
            + (bs.map fun b => (batchCounts b.yTrue b.yPred).2.1).sum : ℕ) : ℚ)) ∧
    phaseMeanMAE bs = (bs.map ValBatch.mae).sum / (bs.length : ℚ) ∧
    Real.sqrt ((phaseMSE1avg bs : ℚ) : ℝ) =
      Real.sqrt ((((bs.map ValBatch.mse1).sum : ℚ) : ℝ) / (bs.length : ℝ)) ∧
    Real.sqrt ((phaseMSE2avg bs : ℚ) : ℝ) =
      Real.sqrt ((((bs.map ValBatch.mse2).sum : ℚ) : ℝ) / (bs.length : ℝ)) := by
  have hsums := runMetricLoop_sums bs
  have hIoU : (bs.map fun b => (batchCounts b.yTrue b.yPred).2.2.2).sum
      + (bs.map fun b => (batchCounts b.yTrue b.yPred).2.2.1).sum
      + (bs.map fun b => (batchCounts b.yTrue b.yPred).2.1).sum ≠ 0 := by omega
  refine ⟨?_, ?_, ?_, ?_, ?_⟩
  · unfold phaseF1
    rw [hsums]
    simp only [if_neg hden]
  · unfold phaseIoU
    rw [hsums]
    simp only [if_neg hIoU]
  · unfold phaseMeanMAE
    rw [hsums]
  · unfold phaseMSE1avg
    rw [hsums]
    push_cast
    rfl
  · unfold phaseMSE2avg
    rw [hsums]
    push_cast
    rfl

theorem c5_witness :
    (2 * (([ValBatch.mk [false, true] [false, true] 1 1 1].map
          fun b => (batchCounts b.yTrue b.yPred).2.2.2).sum)
        + (([ValBatch.mk [false, true] [false, true] 1 1 1].map
          fun b => (batchCounts b.yTrue b.yPred).2.2.1).sum)
        + (([ValBatch.mk [false, true] [false, true] 1 1 1].map
          fun b => (batchCounts b.yTrue b.yPred).2.1).sum) ≠ 0) ∧
      (phaseF1 [ValBatch.mk [false, true] [false, true] 1 1 1] = some
          ((2 * (([ValBatch.mk [false, true] [false, true] 1 1 1].map
              fun b => (batchCounts b.yTrue b.yPred).2.2.2).sum) : ℚ) /
            ((2 * (([ValBatch.mk [false, true] [false, true] 1 1 1].map
                fun b => (batchCounts b.yTrue b.yPred).2.2.2).sum)
              + (([ValBatch.mk [false, true] [false, true] 1 1 1].map
                fun b => (batchCounts b.yTrue b.yPred).2.2.1).sum)
              + (([ValBatch.mk [false, true] [false, true] 1 1 1].map
                fun b => (batchCounts b.yTrue b.yPred).2.1).sum) : ℕ) : ℚ)) ∧
        phaseIoU [ValBatch.mk [false, true] [false, true] 1 1 1] = some
          (((([ValBatch.mk [false, true] [false, true] 1 1 1].map
              fun b => (batchCounts b.yTrue b.yPred).2.2.2).sum : ℕ) : ℚ) /
            (((([ValBatch.mk [false, true] [false, true] 1 1 1].map
                fun b => (batchCounts b.yTrue b.yPred).2.2.2).sum)
              + (([ValBatch.mk [false, true] [false, true] 1 1 1].map
                fun b => (batchCounts b.yTrue b.yPred).2.2.1).sum)
              + (([ValBatch.mk [false, true] [false, true] 1 1 1].map
                fun b => (batchCounts b.yTrue b.yPred).2.1).sum) : ℕ) : ℚ)) ∧
        phaseMeanMAE [ValBatch.mk [false, true] [false, true] 1 1 1] =
          ([ValBatch.mk [false, true] [false, true] 1 1 1].map ValBatch.mae).sum /
            (([ValBatch.mk [false, true] [false, true] 1 1 1] : List ValBatch).length : ℚ) ∧
        Real.sqrt ((phaseMSE1avg [ValBatch.mk [false, true] [false, true] 1 1 1] : ℚ) : ℝ) =
          Real.sqrt
            (((([ValBatch.mk [false, true] [false, true] 1 1 1].map ValBatch.mse1).sum : ℚ) : ℝ) /
              (([ValBatch.mk [false, true] [false, true] 1 1 1] : List ValBatch).length : ℝ)) ∧
        Real.sqrt ((phaseMSE2avg [ValBatch.mk [false, true] [false, true] 1 1 1] : ℚ) : ℝ) =
          Real.sqrt
            (((([ValBatch.mk [false, true] [false, true] 1 1 1].map ValBatch.mse2).sum : ℚ) : ℝ) /
              (([ValBatch.mk [false, true] [false, true] 1 1 1] : List ValBatch).length : ℝ))) :=
  ⟨by decide, c5_phase_metrics_closed_forms [ValBatch.mk [false, true] [false, true] 1 1 1]
    (by decide)⟩

/-- C8: the phase-end `F1` and `IoU` divisions are unguarded; when every batch
of the phase took the degenerate confusion-matrix fallback, the summed `TP`,
`FN`, `FP` are all zero, the integer denominators are zero, and the
computation is undefined (`none`, a `ZeroDivisionError`) instead of a metric. -/
theorem c8_all_fallback_division_undefined (bs : List ValBatch)
    (hdeg : ∀ b ∈ bs, ∃ c : Bool, ∀ x ∈ b.yTrue ++ b.yPred, x = c) :
    (runMetricLoop bs).TP = 0 ∧ (runMetricLoop bs).FN = 0 ∧ (runMetricLoop bs).FP = 0 ∧
    phaseF1 bs = none ∧ phaseIoU bs = none := by
  have hzero : ∀ b ∈ bs, batchCounts b.yTrue b.yPred = (0, 0, 0, 0) := by
    intro b hb
    obtain ⟨c, hc⟩ := hdeg b hb
    exact batchCounts_single_class b.yTrue b.yPred c hc
  have htp : (bs.map fun b => (batchCounts b.yTrue b.yPred).2.2.2).sum = 0 := by
    rw [List.sum_eq_zero]
    intro x hx
    obtain ⟨b, hb, hbx⟩ := List.mem_map.mp hx
    rw [hzero b hb] at hbx
    exact hbx.symm
  have hfn : (bs.map fun b => (batchCounts b.yTrue b.yPred).2.2.1).sum = 0 := by
    rw [List.sum_eq_zero]
    intro x hx
    obtain ⟨b, hb, hbx⟩ := List.mem_map.mp hx
    rw [hzero b hb] at hbx
    exact hbx.symm
  have hfp : (bs.map fun b => (batchCounts b.yTrue b.yPred).2.1).sum = 0 := by
    rw [List.sum_eq_zero]
    intro x hx
    obtain ⟨b, hb, hbx⟩ := List.mem_map.mp hx
    rw [hzero b hb] at hbx
    exact hbx.symm
  have hsums := runMetricLoop_sums bs
  refine ⟨by rw [hsums]; exact htp, by rw [hsums]; exact hfn, by rw [hsums]; exact hfp, ?_, ?_⟩
  · unfold phaseF1
    rw [hsums]
    simp [htp, hfn, hfp]
  · unfold phaseIoU
    rw [hsums]
    simp [htp, hfn, hfp]

theorem c8_witness :
    (∀ b ∈ [ValBatch.mk [false] [false] 0 0 0], ∃ c : Bool, ∀ x ∈ b.yTrue ++ b.yPred, x = c) ∧
      ((runMetricLoop [ValBatch.mk [false] [false] 0 0 0]).TP = 0 ∧
        (runMetricLoop [ValBatch.mk [false] [false] 0 0 0]).FN = 0 ∧
        (runMetricLoop [ValBatch.mk [false] [false] 0 0 0]).FP = 0 ∧
        phaseF1 [ValBatch.mk [false] [false] 0 0 0] = none ∧
        phaseIoU [ValBatch.mk [false] [false] 0 0 0] = none) := by
  have hp : ∀ b ∈ [ValBatch.mk [false] [false] 0 0 0],
      ∃ c : Bool, ∀ x ∈ b.yTrue ++ b.yPred, x = c := by
    intro b hb
    rw [List.mem_singleton] at hb
    subst hb
    exact ⟨false, by decide⟩
  exact ⟨hp, c8_all_fallback_division_undefined [ValBatch.mk [false] [false] 0 0 0] hp⟩

/-- C9: `metric_mse` with `exclude_zeros=True` divides by
`np.count_nonzero(targets)` with no guard, so an all-zero target array gives a
zero divisor and an undefined result; with `exclude_zeros=False` it returns
the mean squared error (defined whenever the arrays are nonempty). -/
theorem c9_metric_mse_zero_divisor (inputs targets : List ℚ)
    (hlen : inputs.length = targets.length) :
    ((∀ t ∈ targets, t = 0) →
      countNonzero targets = 0 ∧ metric_mse inputs targets true = none) ∧
    (targets ≠ [] →
      metric_mse inputs targets false =
        some ((((inputs.zip targets).map fun p => (p.1 - p.2) ^ 2).sum) /
          (targets.length : ℚ))) := by
  have hzlen : ((inputs.zip targets).map fun p => (p.1 - p.2) ^ 2).length = targets.length := by
    rw [List.length_map, List.length_zip, hlen, min_self]
  constructor
  · intro hall
    have hcnt : countNonzero targets = 0 := by
      unfold countNonzero
      rw [List.length_eq_zero, List.filter_eq_nil_iff]
      intro t ht
      simpa using hall t ht
    refine ⟨hcnt, ?_⟩
    unfold metric_mse
    simp [hcnt]
  · intro hne
    unfold metric_mse
    simp only [Bool.false_eq_true, if_false, hzlen]
    rw [if_neg (fun h => hne (List.length_eq_zero.mp h))]

theorem c9_witness :
    (([1, 2] : List ℚ).length = ([0, 0] : List ℚ).length) ∧
      (((∀ t ∈ ([0, 0] : List ℚ), t = 0) →
          countNonzero [0, 0] = 0 ∧ metric_mse [1, 2] [0, 0] true = none) ∧
        (([0, 0] : List ℚ) ≠ [] →
          metric_mse [1, 2] [0, 0] false =
            some (((([1, 2] : List ℚ).zip [0, 0]).map fun p => (p.1 - p.2) ^ 2).sum /
              (([0, 0] : List ℚ).length : ℚ)))) :=
  ⟨rfl, c9_metric_mse_zero_divisor [1, 2] [0, 0] rfl⟩

/-! ## Theorems for claims C7 and C10 -/

/-- C7: whatever values the bound names hold on a test batch, evaluating the
verbose branch's references stops with a `NameError` on `s_rmse`: the name is
not in scope (only `s_rmse1` is), so the branch raises as soon as it is
exercised. -/
theorem c7_verbose_branch_name_error (vals : String → ℚ) :
    evalNames (scopeEnv vals) verboseRefNames = Except.error "s_rmse" ∧
    "s_rmse" ∉ testScopeNames ∧ "s_rmse1" ∈ testScopeNames := by
  refine ⟨rfl, by decide, by decide⟩

theorem map_const_eval (l : List ℕ) :
    (l.map fun _ => NetMode.eval) = List.replicate l.length NetMode.eval := by
  induction l with
  | nil => rfl
  | cons e es ih => simp [ih, List.replicate_succ]

theorem phaseModes_eval_replicate (l : List ℕ) :
    phaseModes NetMode.eval l = List.replicate l.length NetMode.eval := by
  induction l with
  | nil => rfl
  | cons e es ih => simp [phaseModes, ih, List.replicate_succ]

/-- C10: `net.train()` is invoked exactly once over the whole run, `net.eval()`
is invoked in every validation phase (plus once before the test phase) with no
return to training mode, so the first epoch's training batches run in train
mode and every later epoch's training batches run in eval mode. -/
theorem c10_train_mode_only_first_epoch (nepochs : ℕ) (h : 2 ≤ nepochs) :
    (modeCalls nepochs).count NetMode.train = 1 ∧
    (modeCalls nepochs).count NetMode.eval = (nepochs - 1) + 1 ∧
    trainingPhaseModes nepochs =
      NetMode.train :: List.replicate (nepochs - 2) NetMode.eval := by
  obtain ⟨k, hk⟩ : ∃ k, nepochs - 1 = k + 1 := ⟨nepochs - 2, by omega⟩
  have hlen : (epochIndices nepochs).length = k + 1 := by
    simp [epochIndices, pythonRange, hk]
  refine ⟨?_, ?_, ?_⟩
  · rw [modeCalls, map_const_eval, hlen]
    simp [List.count_cons, List.count_append, List.count_replicate]
  · rw [modeCalls, map_const_eval, hlen]
    simp [List.count_cons, List.count_append, List.count_replicate]
    omega
  · have hcons : epochIndices nepochs = 1 :: List.range' 2 k := by
      unfold epochIndices pythonRange
      rw [hk, List.range'_succ]
    rw [trainingPhaseModes, hcons]
    show NetMode.train :: phaseModes NetMode.eval (List.range' 2 k) = _
    rw [phaseModes_eval_replicate]
    have : (List.range' 2 k).length = nepochs - 2 := by
      rw [List.length_range']
      omega
    rw [this]

theorem c10_witness :
    2 ≤ 3 ∧
      ((modeCalls 3).count NetMode.train = 1 ∧
        (modeCalls 3).count NetMode.eval = (3 - 1) + 1 ∧
        trainingPhaseModes 3 = NetMode.train :: List.replicate (3 - 2) NetMode.eval) :=
  ⟨by decide, c10_train_mode_only_first_epoch 3 (by decide)⟩

end Train3DCD
